import Mathlib

/-!
Verification of the `argparse` single-header C++ library (src/argparse.h)
against its natural-language specification.

The embedding below translates the implementation block of the header
(`ARGPARSE_IMPLEMENTATION`, lines 47-179) into Lean:

* the three name-validation regexes (`flag_rule`, `optional_rule`,
  `positional_rule`) become decidable Boolean matchers;
* `ParseTraits<int>::parse` wraps `std::stoi`, modelled exactly
  (whitespace skip, optional sign, longest base-10 digit prefix,
  `int` range check, exceptions mapped to `none`);
* `ParseTraits<double>::parse` wraps `std::stod`.  The source declares its
  return type as `std::optional<int>` (line 80), so the parsed `double` is
  converted to `int` (truncation toward zero) before being returned.  The
  `std::stod` model covers the decimal / exponential literal subset of the
  `strtod` grammar with the value taken as an exact rational (it omits the
  hexadecimal, `inf` and `nan` forms and nearest-double rounding, which no
  theorem below depends on);
* `ParseTraits<std::string>::parse` is the identity;
* the `ArgumentParser` registries become lists: an association list for
  `m_flags_dict` and `m_optionals_dict` (names mapped to caller-cell ids,
  standing in for the C++ references / token parsers), a plain list for the
  `m_positional_dict` set and for `m_positional_vect`;
* each registration function returns a `RegResult` carrying
  - `ret : Option Bool`, the value returned by the C++ function:
    `some false` for the explicit `return false` statements, and `none`
    for the paths on which the source reaches the closing brace of a
    `bool`-returning function without any `return` statement
    (`add_flag` line 137, `add_option` line 153, `add_positional` line 171);
  - `diag : Option String`, the diagnostic written to `std::cerr`
    (pre-formatted, matching the `std::format` strings of the source);
  - `st : ArgumentParser`, the registries after the call;
* `parse_args` is the stub of lines 174-176: it returns `false` and never
  touches any caller-supplied storage cell, which the embedding shows by
  threading an arbitrary cell store through it unchanged.

Two identifiers of the source do not resolve as written: `add_option`
(line 142) tests `option_rule`, which is never declared -- the declared
rule for option names is `optional_rule` (line 54, equal to `flag_rule`) --
and `add_positional` (line 158) writes `nor` for `not`.  The embedding
reads them as `optional_rule` and `not`, the only declared referents.
-/

/-- Character class `[-a-zA-Z]` of the flag/option name regex. -/
def isFlagChar (c : Char) : Bool :=
  c == '-' || ('a' ≤ c && c ≤ 'z') || ('A' ≤ c && c ≤ 'Z')

/-- Full-match semantics of `std::regex_match` with `flag_rule`
(the regex `-[-a-zA-Z]+` of line 53): a literal dash followed by one or
more characters from `[-a-zA-Z]`. -/
def flag_rule (s : String) : Bool :=
  match s.data with
  | '-' :: c :: cs => isFlagChar c && cs.all isFlagChar
  | _ => false

/-- Option names use the same rule as flags (`optional_rule = flag_rule`,
line 54). -/
def optional_rule (s : String) : Bool := flag_rule s

/-- Character class `[_a-zA-Z]` opening the positional name regex. -/
def isIdentStart (c : Char) : Bool :=
  c == '_' || ('a' ≤ c && c ≤ 'z') || ('A' ≤ c && c ≤ 'Z')

/-- Character class `[_a-zA-Z0-9]` of the positional name regex. -/
def isIdentChar (c : Char) : Bool :=
  isIdentStart c || c.isDigit

/-- Full-match semantics of `std::regex_match` with `positional_rule`
(the regex `[_a-zA-Z][_a-zA-Z0-9]*` of line 55). -/
def positional_rule (s : String) : Bool :=
  match s.data with
  | c :: cs => isIdentStart c && cs.all isIdentChar
  | _ => false

/-- Numeric value of a base-10 digit string. -/
def digitsToNat (cs : List Char) : Nat :=
  cs.foldl (fun a c => 10 * a + (c.toNat - '0'.toNat)) 0

/-- Whitespace characters skipped by `strtol` / `strtod` in the default C
locale: space, tab, newline, vertical tab, form feed, carriage return. -/
def isSpaceChar (c : Char) : Bool :=
  c == ' ' || c == '\t' || c == '\n' || c == Char.ofNat 11 ||
  c == Char.ofNat 12 || c == '\r'

/-- Model of `std::stoi` (used by `ParseTraits<int>::parse`, line 70):
skip leading whitespace, read an optional sign and then the longest prefix
of base-10 digits, ignoring any trailing text.  `none` models the
exceptions caught on line 71: `std::invalid_argument` when no digit is
read, `std::out_of_range` when the value does not fit in a 32-bit `int`. -/
def stoi (s : String) : Option Int :=
  let cs := s.data.dropWhile isSpaceChar
  let (sign, cs2) :=
    match cs with
    | '-' :: rest => ((-1 : Int), rest)
    | '+' :: rest => ((1 : Int), rest)
    | _ => ((1 : Int), cs)
  let digits := cs2.takeWhile Char.isDigit
  if digits.isEmpty then none
  else
    let v : Int := sign * (digitsToNat digits : Int)
    if v < -2147483648 ∨ 2147483647 < v then none else some v

/-- Embedding of `ParseTraits<int>::parse` (lines 66-75): `std::stoi` with
both exception paths turned into `std::nullopt`. -/
def ParseTraitsInt.parse (s : String) : Option Int := stoi s

/-- Model of `std::stod` (used by `ParseTraits<double>::parse`, line 82) on
the decimal part of the `strtod` grammar: skip whitespace, optional sign,
digits with an optional fractional part, and an optional exponent; the
longest valid prefix is consumed and trailing text is ignored; `none`
models `std::invalid_argument` when no mantissa digit is read.  The value
is the exact rational denoted by the literal (see the file comment for the
subset covered). -/
def stod (s : String) : Option Rat :=
  let cs := s.data.dropWhile isSpaceChar
  let (sign, cs2) :=
    match cs with
    | '-' :: rest => ((-1 : Int), rest)
    | '+' :: rest => ((1 : Int), rest)
    | _ => ((1 : Int), cs)
  let ipart := cs2.takeWhile Char.isDigit
  let cs3 := cs2.dropWhile Char.isDigit
  let (fpart, cs4) :=
    match cs3 with
    | '.' :: rest => (rest.takeWhile Char.isDigit, rest.dropWhile Char.isDigit)
    | _ => (([] : List Char), cs3)
  if ipart.isEmpty && fpart.isEmpty then none
  else
    let m : Int := sign * (digitsToNat (ipart ++ fpart) : Int)
    let expVal : Int :=
      match cs4 with
      | e :: rest =>
        if e == 'e' || e == 'E' then
          let (esign, rest2) :=
            match rest with
            | '-' :: r => ((-1 : Int), r)
            | '+' :: r => ((1 : Int), r)
            | _ => ((1 : Int), rest)
          let edigits := rest2.takeWhile Char.isDigit
          if edigits.isEmpty then 0 else esign * (digitsToNat edigits : Int)
        else 0
      | [] => 0
    let shift : Int := expVal - (fpart.length : Int)
    some (if 0 ≤ shift then mkRat (m * (10 : Int) ^ shift.toNat) 1
          else mkRat m ((10 : Nat) ^ (-shift).toNat))

/-- Truncation toward zero, the C++ floating-point-to-integer conversion
applied when a `double` is returned as `std::optional<int>`. -/
def ratTrunc (q : Rat) : Int := q.num.sign * ((q.num.natAbs / q.den : Nat) : Int)

/-- Embedding of `ParseTraits<double>::parse` (lines 78-87).  The source
declares the return type `std::optional<int>` (line 80), not
`std::optional<double>`, so the `double` produced by `std::stod` is
implicitly converted to `int`, truncating toward zero. -/
def ParseTraitsDouble.parse (s : String) : Option Int := (stod s).map ratTrunc

/-- Embedding of `ParseTraits<std::string>::parse` (lines 90-95): always
returns the input string. -/
def ParseTraitsString.parse (s : String) : Option String := some s

/-- State of an `ArgumentParser` object (fields of lines 34-43).  C++
references to caller storage cells (and the token parsers wrapping them)
are represented by numeric cell identifiers. -/
structure ArgumentParser where
  m_program_name : String
  m_program_description : String
  m_flags_dict : List (String × Nat)
  m_optionals_dict : List (String × Nat)
  m_positional_dict : List String
  m_positional_vect : List Nat
deriving Repr, DecidableEq

/-- Constructor of lines 119-122: stores the program name and description;
all registries start empty. -/
def mkArgumentParser (program_name program_description : String) : ArgumentParser :=
  ⟨program_name, program_description, [], [], [], []⟩

/-- Key lookup in an association list, the `contains` test of the
`std::unordered_map` registries. -/
def dictContains (d : List (String × Nat)) (k : String) : Bool :=
  d.any (fun kv => kv.1 == k)

/-- Outcome of one registration call: the value returned by the C++
function (`none` when control falls off the end of the `bool` function
with no `return`), the diagnostic written to `std::cerr`, and the parser
state after the call. -/
structure RegResult where
  ret : Option Bool
  diag : Option String
  st : ArgumentParser
deriving Repr, DecidableEq

/-- Diagnostic of line 127. -/
def fmtInvalidFlag (n : String) : String :=
  "[ERROR]: `" ++ n ++ "` is not an appropriate flag name\n"

/-- Diagnostic of lines 132 and 148. -/
def fmtAlreadyRegistered (n : String) : String :=
  "[ERROR]: `" ++ n ++ "` has been already registered\n"

/-- Diagnostic of line 143. -/
def fmtInvalidOption (n : String) : String :=
  "[ERROR]: `" ++ n ++ "` is not an appropriate option name\n"

/-- Diagnostic of line 159. -/
def fmtInvalidPositional (n : String) : String :=
  "[ERROR]: `" ++ n ++ "` is not an appropriate positional name, must be an identifier\n"

/-- Diagnostic of line 164. -/
def fmtDuplicatePositional (n : String) : String :=
  "[ERROR]: another positional with name `" ++ n ++ "` has already been registered\n"

/-- Embedding of `ArgumentParser::add_flag` (lines 125-137).  On the
success path the source stores the binding (`m_flags_dict[argument_name] =
ref`, line 136) and then reaches the end of the function without a
`return` statement, hence `ret = none`. -/
def ArgumentParser.add_flag (p : ArgumentParser) (argument_name : String)
    (ref : Nat) : RegResult :=
  if flag_rule argument_name = false then
    ⟨some false, some (fmtInvalidFlag argument_name), p⟩
  else if dictContains p.m_flags_dict argument_name ||
          dictContains p.m_optionals_dict argument_name then
    ⟨some false, some (fmtAlreadyRegistered argument_name), p⟩
  else
    ⟨none, none,
     ⟨p.m_program_name, p.m_program_description,
      (argument_name, ref) :: p.m_flags_dict, p.m_optionals_dict,
      p.m_positional_dict, p.m_positional_vect⟩⟩

/-- Embedding of `ArgumentParser::add_option` (lines 140-153).  The name
check reads the declared `optional_rule` for the source's undeclared
`option_rule` (see the file comment).  On the success path the source has
only the comment `TODO: add parser to dictionary` (line 152): nothing is
inserted into `m_optionals_dict` and control falls off the end, hence the
state is returned unchanged with `ret = none`. -/
def ArgumentParser.add_option (p : ArgumentParser) (argument_name : String)
    (ref : Nat) : RegResult :=
  if optional_rule argument_name = false then
    ⟨some false, some (fmtInvalidOption argument_name), p⟩
  else if dictContains p.m_flags_dict argument_name ||
          dictContains p.m_optionals_dict argument_name then
    ⟨some false, some (fmtAlreadyRegistered argument_name), p⟩
  else
    ⟨none, none, p⟩

/-- Embedding of `ArgumentParser::add_positional` (lines 156-171), reading
`not` for the source's `nor` (line 158, see the file comment).  On the
success path the source inserts the name into the `m_positional_dict` set
(line 168) -- modelled as consing onto the list, the name being absent on
this branch -- but, per the `TODO` of line 170, appends nothing to
`m_positional_vect`, and control falls off the end, hence `ret = none`. -/
def ArgumentParser.add_positional (p : ArgumentParser) (argument_name : String)
    (ref : Nat) : RegResult :=
  if positional_rule argument_name = false then
    ⟨some false, some (fmtInvalidPositional argument_name), p⟩
  else if p.m_positional_dict.contains argument_name then
    ⟨some false, some (fmtDuplicatePositional argument_name), p⟩
  else
    ⟨none, none,
     ⟨p.m_program_name, p.m_program_description,
      p.m_flags_dict, p.m_optionals_dict,
      argument_name :: p.m_positional_dict, p.m_positional_vect⟩⟩

/-- Embedding of `ArgumentParser::parse_args` (lines 174-176).  The body
is the single statement `return false`: it returns `false` for every
argument vector and never writes to any caller-supplied storage cell,
shown here by threading an arbitrary cell store `cells` through
unchanged. -/
def ArgumentParser.parse_args {σ : Type} (p : ArgumentParser)
    (argv : List String) (cells : σ) : Bool × σ :=
  (false, cells)

/-- Caller-supplied storage cells of end-to-end scenario 1: `v : bool` for
the flag `--verbose`, `c : int` for the option `--count`, `n : string` for
the positional `name`, with their default-initialized values `false`, `0`,
`""`. -/
structure Cells where
  v : Bool
  c : Int
  n : String
deriving Repr, DecidableEq

/-- Parser state after the three registrations of end-to-end scenario 1 on
a fresh parser (cell ids: `v` is 0, `c` is 1, `n` is 2). -/
def scenarioParser : ArgumentParser :=
  ((((mkArgumentParser "prog" "desc").add_flag "--verbose" 0).st.add_option
      "--count" 1).st.add_positional "name" 2).st

/-- Initial cell values of end-to-end scenario 1. -/
def scenarioCells : Cells := ⟨false, 0, ""⟩

/-- Claim C1: the claim says parsing `["--verbose", "--count", "5",
"alice"]` after the three registrations succeeds and sets `v = true`,
`c = 5`, `n = "alice"`.  The source's `parse_args` is the stub
`return false` (lines 174-176): evaluated at exactly that input it returns
`false` and leaves every cell at its initial value (`v = false`, `c = 0`,
`n = ""`), contradicting the claim. -/
theorem parse_args_scenario1_returns_false_and_writes_no_cell :
    (scenarioParser.parse_args ["--verbose", "--count", "5", "alice"]
        scenarioCells).1 = false ∧
    (scenarioParser.parse_args ["--verbose", "--count", "5", "alice"]
        scenarioCells).2.v = false ∧
    (scenarioParser.parse_args ["--verbose", "--count", "5", "alice"]
        scenarioCells).2.c = 0 ∧
    (scenarioParser.parse_args ["--verbose", "--count", "5", "alice"]
        scenarioCells).2.n = "" :=
  ⟨rfl, rfl, rfl, rfl⟩

/-- Claim C2: the claim says a valid, fresh flag name is stored and `true`
is returned.  Evaluating `add_flag("--verbose", v)` on a fresh parser: the
binding IS stored in `m_flags_dict`, but the function returns nothing
(`ret = none`): the success path of lines 136-137 has no `return`
statement, so no success indicator `true` is ever produced. -/
theorem add_flag_stores_binding_but_returns_no_value :
    ((mkArgumentParser "prog" "desc").add_flag "--verbose" 0).st.m_flags_dict
      = [("--verbose", 0)] ∧
    ((mkArgumentParser "prog" "desc").add_flag "--verbose" 0).ret = none ∧
    ((mkArgumentParser "prog" "desc").add_flag "--verbose" 0).diag = none := by
  decide

/-- Claim C3: the claim says a second registration of an already
registered name fails with a duplicate-name error and returns `false`.
For `add_option` this is false on the code: the first
`add_option("--count")` never inserts into `m_optionals_dict` (the `TODO`
of line 152), so the second `add_option("--count")` passes the duplicate
check of line 147, emits no diagnostic, and falls off the end of the
function instead of returning `false`. -/
theorem second_add_option_of_same_name_is_not_rejected :
    ((mkArgumentParser "prog" "desc").add_option "--count" 0).st
      = mkArgumentParser "prog" "desc" ∧
    ((mkArgumentParser "prog" "desc").add_option "--count" 0).ret = none ∧
    (((mkArgumentParser "prog" "desc").add_option "--count" 0).st.add_option
        "--count" 1).ret = none ∧
    (((mkArgumentParser "prog" "desc").add_option "--count" 0).st.add_option
        "--count" 1).diag = none := by
  decide

/-- Counterexample to claim C4: the claim says the integer conversion
fails on `"3.5"`; `std::stoi` instead parses the digit prefix `"3"` and
succeeds with the value 3. -/
theorem int_conversion_counterexample_3_point_5 :
    ParseTraitsInt.parse "3.5" ≠ none ∧ ParseTraitsInt.parse "3.5" = some 3 := by
  decide

/-- Claim C4 (amended): the integer conversion maps `"42"` to 42 and
`"-7"` to -7 and fails on `"abc"`, but it follows `std::stoi` prefix
semantics rather than whole-string matching: after optional whitespace and
an optional sign it converts the longest base-10 digit prefix and ignores
trailing text, so `"3.5"` succeeds with 3 and `"42abc"` with 42; it fails
exactly when no digit prefix exists or the value falls outside the 32-bit
`int` range. -/
theorem int_conversion_follows_stoi_prefix_semantics :
    ParseTraitsInt.parse "42" = some 42 ∧
    ParseTraitsInt.parse "-7" = some (-7) ∧
    ParseTraitsInt.parse "abc" = none ∧
    ParseTraitsInt.parse "3.5" = some 3 ∧
    ParseTraitsInt.parse "42abc" = some 42 ∧
    ParseTraitsInt.parse " +42" = some 42 ∧
    ParseTraitsInt.parse "" = none ∧
    ParseTraitsInt.parse "-" = none ∧
    ParseTraitsInt.parse "2147483648" = none ∧
    ParseTraitsInt.parse "-2147483648" = some (-2147483648) := by
  decide

/-- Claim C5: the claim says the floating-point conversion returns the
untruncated floating-point value 3.14 for `"3.14"`.  The source's
`ParseTraits<double>::parse` declares return type `std::optional<int>`
(line 80), contradicting the primary template's `std::optional<T>`
(line 62): the `double` 3.14 produced by `std::stod` is converted to
`int`, and the conversion returns 3. -/
theorem double_conversion_truncates_3_point_14_to_3 :
    stod "3.14" = some (mkRat 157 50) ∧
    ParseTraitsDouble.parse "3.14" = some 3 := by
  decide

/-- Claim C6: the text conversion strategy is the identity: for every
input string, including the empty string, it succeeds and returns the
input unchanged. -/
theorem string_conversion_is_identity (s : String) :
    ParseTraitsString.parse s = some s := rfl

/-- Claim C7: every name rejected by the flag/option regex `-[-a-zA-Z]+`
makes `add_flag` and `add_option` return `false` with the invalid-name
diagnostic, and every name rejected by the positional regex
`[_a-zA-Z][_a-zA-Z0-9]*` makes `add_positional` return `false` with the
invalid-name diagnostic; in each case the parser state is untouched. -/
theorem invalid_name_registration_returns_false
    (p : ArgumentParser) (nm : String) (ref : Nat) :
    (flag_rule nm = false →
      (p.add_flag nm ref).ret = some false ∧
      (p.add_flag nm ref).diag = some (fmtInvalidFlag nm) ∧
      (p.add_flag nm ref).st = p) ∧
    (flag_rule nm = false →
      (p.add_option nm ref).ret = some false ∧
      (p.add_option nm ref).diag = some (fmtInvalidOption nm) ∧
      (p.add_option nm ref).st = p) ∧
    (positional_rule nm = false →
      (p.add_positional nm ref).ret = some false ∧
      (p.add_positional nm ref).diag = some (fmtInvalidPositional nm) ∧
      (p.add_positional nm ref).st = p) := by
  refine ⟨fun h => ?_, fun h => ?_, fun h => ?_⟩ <;>
    simp [ArgumentParser.add_flag, ArgumentParser.add_option,
      ArgumentParser.add_positional, optional_rule, h]

/-- Witness for claim C7 at the spec's own examples: `"foo"` and
`"--1bad"` are rejected as flag/option names, `"-x"` as a positional
name. -/
theorem invalid_name_registration_returns_false_witness :
    ((mkArgumentParser "prog" "desc").add_flag "foo" 0).ret = some false ∧
    ((mkArgumentParser "prog" "desc").add_option "--1bad" 1).ret = some false ∧
    ((mkArgumentParser "prog" "desc").add_positional "-x" 2).ret = some false :=
  ⟨((invalid_name_registration_returns_false
      (mkArgumentParser "prog" "desc") "foo" 0).1 (by decide)).1,
   ((invalid_name_registration_returns_false
      (mkArgumentParser "prog" "desc") "--1bad" 1).2.1 (by decide)).1,
   ((invalid_name_registration_returns_false
      (mkArgumentParser "prog" "desc") "-x" 2).2.2 (by decide)).1⟩

/-- Claim C8: whenever a registration call returns `false` (both failure
paths: invalid name, duplicate name), the parser state -- all four
registries -- is exactly what it was before the call. -/
theorem failed_registration_leaves_state_unchanged
    (p : ArgumentParser) (nm : String) (ref : Nat) :
    ((p.add_flag nm ref).ret = some false → (p.add_flag nm ref).st = p) ∧
    ((p.add_option nm ref).ret = some false → (p.add_option nm ref).st = p) ∧
    ((p.add_positional nm ref).ret = some false →
      (p.add_positional nm ref).st = p) := by
  refine ⟨?_, ?_, ?_⟩
  · unfold ArgumentParser.add_flag
    split
    · exact fun _ => rfl
    · split
      · exact fun _ => rfl
      · intro h; simp at h
  · unfold ArgumentParser.add_option
    split
    · exact fun _ => rfl
    · split
      · exact fun _ => rfl
      · intro h; simp at h
  · unfold ArgumentParser.add_positional
    split
    · exact fun _ => rfl
    · split
      · exact fun _ => rfl
      · intro h; simp at h

/-- Witness for claim C8: the three registration functions, failing on
concrete inputs (invalid flag name `"foo"`, invalid option name `"foo"`,
invalid positional name `"123x"`), leave a fresh parser unchanged. -/
theorem failed_registration_leaves_state_unchanged_witness :
    ((mkArgumentParser "prog" "desc").add_flag "foo" 0).st
      = mkArgumentParser "prog" "desc" ∧
    ((mkArgumentParser "prog" "desc").add_option "foo" 1).st
      = mkArgumentParser "prog" "desc" ∧
    ((mkArgumentParser "prog" "desc").add_positional "123x" 2).st
      = mkArgumentParser "prog" "desc" :=
  ⟨(failed_registration_leaves_state_unchanged
      (mkArgumentParser "prog" "desc") "foo" 0).1 (by decide),
   (failed_registration_leaves_state_unchanged
      (mkArgumentParser "prog" "desc") "foo" 1).2.1 (by decide),
   (failed_registration_leaves_state_unchanged
      (mkArgumentParser "prog" "desc") "123x" 2).2.2 (by decide)⟩

/-- Claim C9: for every argument vector and every state of the
caller-supplied storage cells, `parse_args` returns `false` and leaves
every cell exactly as it was: the body is the single statement
`return false`. -/
theorem parse_args_returns_false_and_preserves_cells
    {σ : Type} (p : ArgumentParser) (argv : List String) (cells : σ) :
    p.parse_args argv cells = (false, cells) := rfl

/-- Claim C10: `add_positional` never appends to `m_positional_vect` (the
`TODO` of line 170) and `add_option` never inserts into `m_optionals_dict`
(the `TODO` of line 152); on a successful `add_positional` (valid fresh
name) the name is nevertheless inserted into the `m_positional_dict`
collision set. -/
theorem add_positional_grows_name_set_but_not_parser_vector
    (p : ArgumentParser) (nm : String) (ref : Nat) :
    (p.add_positional nm ref).st.m_positional_vect = p.m_positional_vect ∧
    (p.add_option nm ref).st.m_optionals_dict = p.m_optionals_dict ∧
    (positional_rule nm = true → p.m_positional_dict.contains nm = false →
      (p.add_positional nm ref).st.m_positional_dict
        = nm :: p.m_positional_dict) := by
  refine ⟨?_, ?_, fun h1 h2 => ?_⟩
  · unfold ArgumentParser.add_positional
    split
    · rfl
    · split <;> rfl
  · unfold ArgumentParser.add_option
    split
    · rfl
    · split <;> rfl
  · have h2m : ¬ nm ∈ p.m_positional_dict := by simpa using h2
    simp [ArgumentParser.add_positional, h1, h2m]

/-- Witness for claim C10 on concrete calls: registering positional
`"name"` on a fresh parser grows the collision set to `["name"]` yet the
parser vector stays empty, and a successful `add_option "--count"` leaves
the option dictionary empty. -/
theorem add_positional_grows_name_set_but_not_parser_vector_witness :
    ((mkArgumentParser "prog" "desc").add_positional "name" 7).st.m_positional_vect
      = [] ∧
    ((mkArgumentParser "prog" "desc").add_option "--count" 7).st.m_optionals_dict
      = [] ∧
    ((mkArgumentParser "prog" "desc").add_positional "name" 7).st.m_positional_dict
      = ["name"] :=
  ⟨(add_positional_grows_name_set_but_not_parser_vector
      (mkArgumentParser "prog" "desc") "name" 7).1,
   (add_positional_grows_name_set_but_not_parser_vector
      (mkArgumentParser "prog" "desc") "--count" 7).2.1,
   (add_positional_grows_name_set_but_not_parser_vector
      (mkArgumentParser "prog" "desc") "name" 7).2.2 (by decide) (by decide)⟩
